import Mathlib

set_option maxHeartbeats 1000000

/-!
Shallow embedding of the authentication / authorization layer of the
Climate-Data-API repository:

* `types/users.ts` — `Role`, `UserObject`;
* `src/models/user.ts` — `getByEmail`, `getByAuthenticationKey`, `create`,
  `update` over the `users` collection (the MongoDB collection is modelled as
  a `List UserObject`; `findOne` is `List.find?`, `replaceOne` by `_id` is a
  pointwise `map`, `insertOne` appends with a store-assigned id);
* `src/controllers/auth.ts` — `loginUser`, `logoutUser`, `registerUser`
  (HTTP responses are modelled as a status/message pair; `bcrypt.compare`
  and `bcrypt.hashSync` are external collaborators and appear as function
  parameters `verify` / `hash`; `uuid4()` and `new Date()` appear as the
  parameters `freshKey` / `now`);
* `src/middleware/auth.js` (the `auth` guard) — a decision function over the
  presented `X-AUTH-KEY` header and the outcome of the store lookup; a
  rejected lookup promise is the `LookupOutcome.err` case;
* `src/controllers/users.ts` — the password-processing step of
  `updateUserById` (lines 180–183) and its store effect.
-/

/-- `Role` from types/users.ts: closed enumeration student | teacher | sensor. -/
inductive Role
  | student
  | teacher
  | sensor
deriving DecidableEq, Repr

/-- `UserObject` from types/users.ts.  The Mongo `ObjectId` is modelled as a
`Nat`, timestamps as `Nat`, and the nullable/absent `authentication_key`,
`creation_date`, `last_login` fields as `Option`. -/
structure UserObject where
  _id : Nat
  email : String
  password : String
  role : Role
  authentication_key : Option String
  creation_date : Option Nat
  last_login : Option Nat
deriving DecidableEq, Repr

/-- models/user.ts `getByEmail`: `findOne({ email: email })` — first record
whose email matches. -/
def getByEmail (store : List UserObject) (email : String) : Option UserObject :=
  store.find? (fun u => u.email == email)

/-- models/user.ts `getByAuthenticationKey`:
`findOne({ authentication_key: key })` — first record whose
authentication_key equals the given key. -/
def getByAuthenticationKey (store : List UserObject) (key : String) :
    Option UserObject :=
  store.find? (fun u => u.authentication_key == some key)

/-- models/user.ts `create`: `delete user._id; insertOne(user)` — the store
assigns a fresh id and appends the record. -/
def create (store : List UserObject) (freshId : Nat) (user : UserObject) :
    List UserObject :=
  store ++ [{ user with _id := freshId }]

/-- models/user.ts `update`: `replaceOne({ _id: user._id }, userWithoutId)` —
full replace of the record with the same `_id` (Mongo keeps the matched
document's `_id`, which equals `user._id`). -/
def update (store : List UserObject) (user : UserObject) : List UserObject :=
  store.map (fun v => if v._id = user._id then user else v)

/-- An HTTP response as the controllers build it: `{ status, message }`. -/
structure ApiResponse where
  status : Nat
  message : String
deriving DecidableEq, Repr

/-- Request body of POST /auth/login (`LoginRequestBody` in types/users.ts). -/
structure LoginRequestBody where
  email : String
  password : String
deriving DecidableEq, Repr

/-- controllers/auth.ts `loginUser`.  Returns the HTTP response, the
`authenticationKey` field of the success body (if any), and the store after
the call.  `verify pw hash` stands for `bcrypt.compare(pw, hash)`,
`freshKey` for `uuid4().toString()`, `now` for `new Date()`. -/
def loginUser (verify : String → String → Bool) (freshKey : String) (now : Nat)
    (store : List UserObject) (body : Option LoginRequestBody) :
    ApiResponse × Option String × List UserObject :=
  match body with
  | none => (⟨400, "Invalid request body"⟩, none, store)
  | some loginData =>
    match getByEmail store loginData.email with
    | none => (⟨401, "Invalid credentials"⟩, none, store)
    | some user =>
      if verify loginData.password user.password then
        let user' := { user with authentication_key := some freshKey,
                                 last_login := some now }
        (⟨200, "User logged in"⟩, some freshKey, update store user')
      else
        (⟨401, "Invalid password"⟩, none, store)

/-- controllers/auth.ts `logoutUser`: look the user up by the presented
authentication key; clear the key and persist, else 404. -/
def logoutUser (store : List UserObject) (authenticationKey : String) :
    ApiResponse × List UserObject :=
  match getByAuthenticationKey store authenticationKey with
  | some user =>
    let user' := { user with authentication_key := none }
    (⟨200, "User has been logged out."⟩, update store user')
  | none => (⟨404, "User was not found."⟩, store)

/-- controllers/auth.ts `registerUser`.  The request body is an arbitrary
`UserObject` (any supplied role or key); on success the inserted record is
built only from its email and password, with role "student", hashed
password, `creation_date := now` and no authentication key. -/
def registerUser (hash : String → String) (now : Nat) (freshId : Nat)
    (store : List UserObject) (userData : UserObject) :
    ApiResponse × List UserObject :=
  match getByEmail store userData.email with
  | some _ =>
    (⟨409, "The provided email address is already associated with another account."⟩,
      store)
  | none =>
    let newUser : UserObject :=
      { _id := 0
        email := userData.email
        password := hash userData.password
        role := Role.student
        authentication_key := none
        creation_date := some now
        last_login := none }
    (⟨200, "Registration successful."⟩, create store freshId newUser)

/-- Outcome of the `getByAuthenticationKey` promise inside the guard:
either it resolves (possibly to no user) or it rejects (`err`). -/
inductive LookupOutcome
  | ok : Option UserObject → LookupOutcome
  | err : LookupOutcome
deriving DecidableEq, Repr

/-- What the guard does with a request: call `next()` (proceed) or send a
rejection response. -/
inductive GuardDecision
  | proceed : GuardDecision
  | reject : ApiResponse → GuardDecision
deriving DecidableEq, Repr

/-- middleware/auth.js `auth(allowed_roles)`: `header` is
`req.get("X-AUTH-KEY")` (`none` when absent; an empty string is falsy in JS
and takes the same branch as an absent header), `lookup` is the
`user.getByAuthenticationKey` promise.  `if (user && allowed_roles.includes
(user.role)) next(); else 403 "Access forbidden"`, and the catch branch
answers 401 "Authentication key invalid". -/
def auth (allowed_roles : List Role) (header : Option String)
    (lookup : String → LookupOutcome) : GuardDecision :=
  match header with
  | some key =>
    if key = "" then
      GuardDecision.reject ⟨401, "Authentication key missing"⟩
    else
      match lookup key with
      | LookupOutcome.ok (some u) =>
        if allowed_roles.contains u.role then
          GuardDecision.proceed
        else
          GuardDecision.reject ⟨403, "Access forbidden"⟩
      | LookupOutcome.ok none =>
        GuardDecision.reject ⟨403, "Access forbidden"⟩
      | LookupOutcome.err =>
        GuardDecision.reject ⟨401, "Authentication key invalid"⟩
  | none => GuardDecision.reject ⟨401, "Authentication key missing"⟩

/-- The guard run against a store in which the lookup succeeds (the
promise resolves): exactly the composition routed through
`getByAuthenticationKey` in the source. -/
def authOnStore (allowed_roles : List Role) (store : List UserObject)
    (header : Option String) : GuardDecision :=
  auth allowed_roles header (fun k => LookupOutcome.ok (getByAuthenticationKey store k))

/-- controllers/users.ts `updateUserById` lines 180–183: hash the supplied
password iff it is truthy (non-empty) and does not already start with
"$2a"; otherwise keep it verbatim.  `hash10 pw` stands for
`bcrypt.hash(pw, 10)`. -/
def updateUserPassword (hash10 : String → String) (password : String) : String :=
  if password != "" && !(password.startsWith "$2a") then hash10 password
  else password

/-- controllers/users.ts `updateUserById`: process the password, then
replace the record with the given id wholesale (the replacement keeps the
matched record's `_id`); 404 when no record matched. -/
def updateUserById (hash10 : String → String) (store : List UserObject)
    (userId : Nat) (userData : UserObject) : ApiResponse × List UserObject :=
  let userData' := { userData with
    password := updateUserPassword hash10 userData.password }
  let store' := store.map (fun v =>
    if v._id = userId then { userData' with _id := userId } else v)
  if store.any (fun v => v._id == userId) then
    (⟨200, "Successfully updated the entire user"⟩, store')
  else
    (⟨404, "User not found"⟩, store')

/-! ### Helper lemmas: `find?` after a full-replace `update` -/

/-- If `find?` already returns `u` and the replacement `u'` keeps `u`'s id
and still satisfies the predicate, then after the replace `find?` returns
`u'` (the earlier non-matching records are untouched or become `u'`). -/
theorem find?_update_of_find? (p : UserObject → Bool) (store : List UserObject)
    (u u' : UserObject) (hfind : store.find? p = some u)
    (hid : u'._id = u._id) (hp : p u' = true) :
    (update store u').find? p = some u' := by
  induction store with
  | nil => simp [List.find?] at hfind
  | cons h t ih =>
    by_cases hph : p h = true
    · rw [List.find?_cons_of_pos t hph] at hfind
      have hu : h = u := by injection hfind
      subst hu
      have hidh : h._id = u'._id := by rw [hid]
      simp only [update, List.map_cons, if_pos hidh]
      exact List.find?_cons_of_pos _ hp
    · rw [List.find?_cons_of_neg t (by simp [hph])] at hfind
      by_cases hidh : h._id = u'._id
      · simp only [update, List.map_cons, if_pos hidh]
        exact List.find?_cons_of_pos _ hp
      · simp only [update, List.map_cons, if_neg hidh]
        rw [List.find?_cons_of_neg _ (by simp [hph])]
        exact ih hfind
  
/-- If the replacement does not satisfy the predicate and no record with a
different id satisfies it either, then after the replace `find?` finds
nothing. -/
theorem find?_update_none (p : UserObject → Bool) (store : List UserObject)
    (u' : UserObject) (hp : p u' = false)
    (hall : ∀ v ∈ store, v._id ≠ u'._id → p v = false) :
    (update store u').find? p = none := by
  induction store with
  | nil => simp [update, List.find?]
  | cons h t ih =>
    have iht : (update t u').find? p = none :=
      ih (fun v hv hne => hall v (List.mem_cons_of_mem h hv) hne)
    by_cases hidh : h._id = u'._id
    · simp only [update, List.map_cons, if_pos hidh]
      rw [List.find?_cons_of_neg _ (by simp [hp])]
      exact iht
    · simp only [update, List.map_cons, if_neg hidh]
      rw [List.find?_cons_of_neg _ (by simp [hall h (List.mem_cons_self h t) hidh])]
      exact iht

/-- If some record in the store carries the replaced id, the replacement
satisfies the predicate, and no record with a different id satisfies it,
then after the replace `find?` returns the replacement. -/
theorem find?_update_fresh (p : UserObject → Bool) (store : List UserObject)
    (u u' : UserObject) (hmem : u ∈ store) (hid : u'._id = u._id) (hp : p u' = true)
    (hall : ∀ v ∈ store, v._id ≠ u'._id → p v = false) :
    (update store u').find? p = some u' := by
  induction store with
  | nil => simp at hmem
  | cons h t ih =>
    by_cases hidh : h._id = u'._id
    · simp only [update, List.map_cons, if_pos hidh]
      exact List.find?_cons_of_pos _ hp
    · simp only [update, List.map_cons, if_neg hidh]
      rw [List.find?_cons_of_neg _ (by simp [hall h (List.mem_cons_self h t) hidh])]
      have hmem' : u ∈ t := by
        rcases List.mem_cons.mp hmem with hEq | hMem
        · exact absurd (by rw [← hEq, hid]) hidh
        · exact hMem
      exact ih hmem' (fun v hv hne => hall v (List.mem_cons_of_mem h hv) hne)

/-- Membership in an updated store: every record is either the replacement
or was already present. -/
theorem mem_update (store : List UserObject) (u' v : UserObject)
    (hv : v ∈ update store u') : v = u' ∨ v ∈ store := by
  rcases List.mem_map.mp hv with ⟨w, hw, hweq⟩
  by_cases hid : w._id = u'._id
  · left; rw [← hweq, if_pos hid]
  · right; rw [← hweq, if_neg hid]; exact hw

/-! ### Helper lemmas: guard decisions from lookup results -/

/-- When the lookup resolves to no user, the guard answers 403
"Access forbidden". -/
theorem auth_of_lookup_none (roles : List Role) (store : List UserObject)
    (key : String) (hk : key ≠ "")
    (hnone : getByAuthenticationKey store key = none) :
    authOnStore roles store (some key) = GuardDecision.reject ⟨403, "Access forbidden"⟩ := by
  simp [authOnStore, auth, hk, hnone]

/-- When the lookup resolves to a user, the guard proceeds exactly when the
user's role is in the allowed set, and otherwise answers 403
"Access forbidden". -/
theorem auth_of_lookup_some (roles : List Role) (store : List UserObject)
    (key : String) (u : UserObject) (hk : key ≠ "")
    (hsome : getByAuthenticationKey store key = some u) :
    authOnStore roles store (some key) =
      if u.role ∈ roles then GuardDecision.proceed
      else GuardDecision.reject ⟨403, "Access forbidden"⟩ := by
  have hcontains : roles.contains u.role = true ↔ u.role ∈ roles := by
    constructor
    · intro hc
      rcases List.contains_iff_exists_mem_beq.mp hc with ⟨r, hr, hbeq⟩
      have hur : u.role = r := by simpa using hbeq
      rwa [hur]
    · intro hm
      exact List.contains_iff_exists_mem_beq.mpr ⟨u.role, hm, by simp⟩
  simp only [authOnStore, auth, hsome, if_neg hk]
  by_cases hmem : u.role ∈ roles
  · rw [if_pos (hcontains.mpr hmem), if_pos hmem]
  · rw [if_neg (fun hc => hmem (hcontains.mp hc)), if_neg hmem]

/-! ### Concrete sample data used by witnesses and counterexamples -/

/-- A sample stored user: teacher with an active session key "tok-A". -/
def sampleTeacher : UserObject :=
  ⟨1, "t@test.com", "hpw", Role.teacher, some "tok-A", some 10, some 20⟩

/-- A sample stored user: student with no active session. -/
def sampleStudent : UserObject :=
  ⟨2, "a@test.com", "abc123", Role.student, none, some 5, none⟩

/-- A toy password verifier for witnesses: plain string equality. -/
def eqVerify : String → String → Bool := fun pw stored => pw == stored

/-! ### C1 -/

/-- C1, as stated, is false: with a presented token that resolves to no
user record (the lookup succeeds and returns no user), the guard answers
403 "Access forbidden", not 401 "Authentication key invalid". -/
theorem C1_counterexample :
    authOnStore [Role.teacher] [sampleTeacher] (some "tok-B")
      = GuardDecision.reject ⟨403, "Access forbidden"⟩
    ∧ authOnStore [Role.teacher] [sampleTeacher] (some "tok-B")
      ≠ GuardDecision.reject ⟨401, "Authentication key invalid"⟩ := by
  exact ⟨rfl, by decide⟩

/-- C1 (amended): for every request to a protected route carrying a
non-empty token that does not resolve to any user record (the lookup
succeeds but returns no user), the Access Guard rejects the request with
HTTP 403 and message "Access forbidden" — the Forbidden rendering, not the
401 InvalidCredential one — and the downstream handler is not invoked. -/
theorem C1_theorem (roles : List Role) (store : List UserObject) (key : String)
    (hk : key ≠ "") (hnone : getByAuthenticationKey store key = none) :
    authOnStore roles store (some key)
      = GuardDecision.reject ⟨403, "Access forbidden"⟩
    ∧ authOnStore roles store (some key) ≠ GuardDecision.proceed := by
  have h := auth_of_lookup_none roles store key hk hnone
  exact ⟨h, by rw [h]; intro hc; cases hc⟩

/-- Witness for C1: the amended claim evaluated on a one-user store and an
unresolvable token. -/
theorem C1_witness :
    authOnStore [Role.teacher] [sampleTeacher] (some "tok-C")
      = GuardDecision.reject ⟨403, "Access forbidden"⟩
    ∧ authOnStore [Role.teacher] [sampleTeacher] (some "tok-C")
      ≠ GuardDecision.proceed :=
  C1_theorem [Role.teacher] [sampleTeacher] "tok-C" (by decide) (by decide)

/-! ### C8 -/

/-- C8, as stated, is false in its classification: when the lookup promise
rejects (a store failure), the guard does reject the request, but with 401
"Authentication key invalid" — not with an internal-error (5xx)
classification. -/
theorem C8_counterexample :
    auth [Role.teacher] (some "tok-A") (fun _ => LookupOutcome.err)
      = GuardDecision.reject ⟨401, "Authentication key invalid"⟩
    ∧ (∀ r : ApiResponse,
        auth [Role.teacher] (some "tok-A") (fun _ => LookupOutcome.err)
          = GuardDecision.reject r → r.status ≠ 500) := by
  refine ⟨rfl, ?_⟩
  intro r hr
  have h0 : auth [Role.teacher] (some "tok-A") (fun _ => LookupOutcome.err)
      = GuardDecision.reject ⟨401, "Authentication key invalid"⟩ := rfl
  rw [h0] at hr
  injection hr with h1
  rw [← h1]
  decide

/-- C8 (amended): when the store lookup itself fails during authorization,
the guard rejects the request immediately with 401
"Authentication key invalid" (the InvalidCredential rendering, not an
internal-error classification) and never lets it proceed to the downstream
handler. -/
theorem C8_theorem (roles : List Role) (key : String)
    (lookup : String → LookupOutcome)
    (hk : key ≠ "") (herr : lookup key = LookupOutcome.err) :
    auth roles (some key) lookup
      = GuardDecision.reject ⟨401, "Authentication key invalid"⟩
    ∧ auth roles (some key) lookup ≠ GuardDecision.proceed := by
  have h : auth roles (some key) lookup
      = GuardDecision.reject ⟨401, "Authentication key invalid"⟩ := by
    simp [auth, hk, herr]
  exact ⟨h, by rw [h]; intro hc; cases hc⟩

/-- Witness for C8: the amended claim evaluated on a lookup that always
fails. -/
theorem C8_witness :
    auth [Role.student] (some "tok-A") (fun _ => LookupOutcome.err)
      = GuardDecision.reject ⟨401, "Authentication key invalid"⟩
    ∧ auth [Role.student] (some "tok-A") (fun _ => LookupOutcome.err)
      ≠ GuardDecision.proceed :=
  C8_theorem [Role.student] "tok-A" (fun _ => LookupOutcome.err)
    (by decide) rfl

/-! ### Shared lemmas about a successful login -/

/-- A successful login: the user found by email and verified gets the fresh
key and the login timestamp, and the whole record is written back. -/
theorem loginUser_success (verify : String → String → Bool) (freshKey : String)
    (now : Nat) (store : List UserObject) (body : LoginRequestBody)
    (user : UserObject)
    (hfind : getByEmail store body.email = some user)
    (hverify : verify body.password user.password = true) :
    loginUser verify freshKey now store (some body)
      = (⟨200, "User logged in"⟩, some freshKey,
          update store { user with authentication_key := some freshKey,
                                   last_login := some now }) := by
  simp [loginUser, hfind, hverify]

/-- After a successful login with a key no record previously carried, the
lookup by that key finds exactly the updated record. -/
theorem getByAuthenticationKey_after_login (store : List UserObject)
    (user : UserObject) (freshKey : String) (now : Nat)
    (hmem : user ∈ store)
    (hfresh : ∀ v ∈ store, v.authentication_key ≠ some freshKey) :
    getByAuthenticationKey
        (update store { user with authentication_key := some freshKey,
                                  last_login := some now })
        freshKey
      = some { user with authentication_key := some freshKey,
                         last_login := some now } := by
  simp only [getByAuthenticationKey]
  apply find?_update_fresh _ _ user
  · exact hmem
  · rfl
  · simp
  · intro v hv hne
    simp [hfresh v hv]

/-! ### C2 -/

/-- C2: for a user registered with a valid (email, password) pair,
`Authenticate` (loginUser) followed immediately by the guard on the
returned token proceeds iff the user's stored role is in the allowed set,
and rejects with 403 "Access forbidden" when it is not.  The freshly
generated uuid key is modelled as a non-empty key no stored record already
carries. -/
theorem C2_theorem (verify : String → String → Bool) (freshKey : String)
    (now : Nat) (store : List UserObject) (body : LoginRequestBody)
    (user : UserObject) (roles : List Role)
    (hfind : getByEmail store body.email = some user)
    (hverify : verify body.password user.password = true)
    (hkey : freshKey ≠ "")
    (hfresh : ∀ v ∈ store, v.authentication_key ≠ some freshKey) :
    (loginUser verify freshKey now store (some body)).1 = ⟨200, "User logged in"⟩
    ∧ (loginUser verify freshKey now store (some body)).2.1 = some freshKey
    ∧ (authOnStore roles (loginUser verify freshKey now store (some body)).2.2
          (some freshKey) = GuardDecision.proceed ↔ user.role ∈ roles)
    ∧ (user.role ∉ roles →
        authOnStore roles (loginUser verify freshKey now store (some body)).2.2
            (some freshKey)
          = GuardDecision.reject ⟨403, "Access forbidden"⟩) := by
  have hlogin := loginUser_success verify freshKey now store body user hfind hverify
  have hlk := getByAuthenticationKey_after_login store user freshKey now
      (List.mem_of_find?_eq_some hfind) hfresh
  have hguard := auth_of_lookup_some roles _ freshKey _ hkey hlk
  have h22 : (loginUser verify freshKey now store (some body)).2.2
      = update store { user with authentication_key := some freshKey,
                                 last_login := some now } := by rw [hlogin]
  refine ⟨by rw [hlogin], by rw [hlogin], ?_, ?_⟩
  · rw [h22, hguard]
    by_cases hmem : user.role ∈ roles
    · simp [hmem]
    · simp [hmem]
  · intro hmem
    rw [h22, hguard]
    simp [hmem]

/-- Witness for C2: a student logs in with the right password; the guard
then rejects a teacher-only route for the fresh token (role not allowed). -/
theorem C2_witness :
    (loginUser eqVerify "fresh-1" 30 [sampleStudent]
        (some ⟨"a@test.com", "abc123"⟩)).1 = ⟨200, "User logged in"⟩
    ∧ (loginUser eqVerify "fresh-1" 30 [sampleStudent]
        (some ⟨"a@test.com", "abc123"⟩)).2.1 = some "fresh-1"
    ∧ (authOnStore [Role.teacher]
          (loginUser eqVerify "fresh-1" 30 [sampleStudent]
            (some ⟨"a@test.com", "abc123"⟩)).2.2
          (some "fresh-1") = GuardDecision.proceed
        ↔ sampleStudent.role ∈ [Role.teacher])
    ∧ (sampleStudent.role ∉ [Role.teacher] →
        authOnStore [Role.teacher]
            (loginUser eqVerify "fresh-1" 30 [sampleStudent]
              (some ⟨"a@test.com", "abc123"⟩)).2.2
            (some "fresh-1")
          = GuardDecision.reject ⟨403, "Access forbidden"⟩) :=
  C2_theorem eqVerify "fresh-1" 30 [sampleStudent] ⟨"a@test.com", "abc123"⟩
    sampleStudent [Role.teacher] (by decide) (by decide) (by decide) (by decide)

/-! ### C3 -/

/-- C3, as stated, is false: after logging out the only holder of "tok-A",
a later guarded request presenting "tok-A" is rejected with 403
"Access forbidden", not with the 401 InvalidCredential rendering. -/
theorem C3_counterexample :
    authOnStore [Role.teacher] (logoutUser [sampleTeacher] "tok-A").2 (some "tok-A")
      = GuardDecision.reject ⟨403, "Access forbidden"⟩
    ∧ authOnStore [Role.teacher] (logoutUser [sampleTeacher] "tok-A").2 (some "tok-A")
      ≠ GuardDecision.reject ⟨401, "Authentication key invalid"⟩ := by
  exact ⟨rfl, by decide⟩

/-- C3 (amended): after `Invalidate` (logoutUser) on a token whose holders
all share the logged-out record's id, any subsequent guarded request with
that token is rejected — but with 403 "Access forbidden" (the token no
longer resolves and the guard folds that case into Forbidden), never
proceeding. -/
theorem C3_theorem (store : List UserObject) (user : UserObject) (key : String)
    (roles : List Role)
    (hfind : getByAuthenticationKey store key = some user)
    (hk : key ≠ "")
    (honly : ∀ v ∈ store, v.authentication_key = some key → v._id = user._id) :
    authOnStore roles (logoutUser store key).2 (some key)
      = GuardDecision.reject ⟨403, "Access forbidden"⟩
    ∧ authOnStore roles (logoutUser store key).2 (some key)
      ≠ GuardDecision.proceed := by
  have hlogout : (logoutUser store key).2
      = update store { user with authentication_key := none } := by
    simp [logoutUser, hfind]
  have hnone : getByAuthenticationKey
      (update store { user with authentication_key := none }) key = none := by
    simp only [getByAuthenticationKey]
    apply find?_update_none
    · rfl
    · intro v hv hne
      have hvk : v.authentication_key ≠ some key := fun hc => hne (honly v hv hc)
      simp [hvk]
  rw [hlogout]
  have h := auth_of_lookup_none roles _ key hk hnone
  exact ⟨h, by rw [h]; intro hc; cases hc⟩

/-- Witness for C3: logging out the sample teacher, then presenting the old
token again. -/
theorem C3_witness :
    authOnStore [Role.teacher] (logoutUser [sampleTeacher] "tok-A").2 (some "tok-A")
      = GuardDecision.reject ⟨403, "Access forbidden"⟩
    ∧ authOnStore [Role.teacher] (logoutUser [sampleTeacher] "tok-A").2 (some "tok-A")
      ≠ GuardDecision.proceed :=
  C3_theorem [sampleTeacher] sampleTeacher "tok-A" [Role.teacher]
    (by decide) (by decide) (by decide)

/-! ### C4 -/

/-- C4: two sequential successful logins for the same user.  The uuid keys
are modelled as two distinct non-empty keys that no stored record carries.
The two returned tokens differ; afterwards the second key resolves to the
user's record while the first resolves to nothing, so the guard rejects the
first token on every route: each login overwrites the single
`authentication_key` field. -/
theorem C4_theorem (verify : String → String → Bool) (k1 k2 : String)
    (t1 t2 : Nat) (store store1 store2 : List UserObject)
    (body : LoginRequestBody) (user : UserObject)
    (hfind : getByEmail store body.email = some user)
    (hverify : verify body.password user.password = true)
    (hk1 : k1 ≠ "") (hk2 : k2 ≠ "") (hne : k1 ≠ k2)
    (hfresh1 : ∀ v ∈ store, v.authentication_key ≠ some k1)
    (hfresh2 : ∀ v ∈ store, v.authentication_key ≠ some k2)
    (hs1 : store1 = (loginUser verify k1 t1 store (some body)).2.2)
    (hs2 : store2 = (loginUser verify k2 t2 store1 (some body)).2.2) :
    (loginUser verify k1 t1 store (some body)).2.1 = some k1
    ∧ (loginUser verify k2 t2 store1 (some body)).2.1 = some k2
    ∧ k1 ≠ k2
    ∧ getByAuthenticationKey store2 k1 = none
    ∧ (∀ roles : List Role, authOnStore roles store2 (some k1)
        = GuardDecision.reject ⟨403, "Access forbidden"⟩)
    ∧ (∃ u2, getByAuthenticationKey store2 k2 = some u2
        ∧ u2._id = user._id ∧ u2.email = user.email
        ∧ u2.authentication_key = some k2) := by
  have hlogin1 := loginUser_success verify k1 t1 store body user hfind hverify
  have hemail : (user.email == body.email) = true := by
    have h := List.find?_some
      (show store.find? (fun u => u.email == body.email) = some user from hfind)
    exact h
  have hs1' : store1 = update store { user with authentication_key := some k1, last_login := some t1 } := by
    rw [hs1, hlogin1]
  have hfind1 : getByEmail store1 body.email
      = some { user with authentication_key := some k1, last_login := some t1 } := by
    rw [hs1']
    exact find?_update_of_find? _ store user
      { user with authentication_key := some k1, last_login := some t1 } hfind rfl hemail
  have hlogin2 := loginUser_success verify k2 t2 store1 body
      { user with authentication_key := some k1, last_login := some t1 } hfind1 hverify
  have hs2' : store2 = update store1 { user with authentication_key := some k2, last_login := some t2 } := by
    rw [hs2, hlogin2]
  have hmem1 : ({ user with authentication_key := some k1, last_login := some t1 } : UserObject) ∈ store1 := by
    rw [hs1']
    exact List.mem_map.mpr ⟨user, List.mem_of_find?_eq_some hfind, by simp⟩
  have hfresh2' : ∀ v ∈ store1, v.authentication_key ≠ some k2 := by
    intro v hv
    rw [hs1'] at hv
    rcases mem_update store _ v hv with hEq | hMem
    · rw [hEq]
      intro hc
      exact hne (by injection hc)
    · exact hfresh2 v hMem
  have hlk2 : getByAuthenticationKey store2 k2
      = some { user with authentication_key := some k2, last_login := some t2 } := by
    rw [hs2']
    have := getByAuthenticationKey_after_login store1
        { user with authentication_key := some k1, last_login := some t1 }
        k2 t2 hmem1 hfresh2'
    exact this
  have hlk1 : getByAuthenticationKey store2 k1 = none := by
    rw [hs2']
    simp only [getByAuthenticationKey]
    apply find?_update_none
    · have h21 : k2 ≠ k1 := Ne.symm hne
      simp [h21]
    · intro v hv hvid
      rw [hs1'] at hv
      rcases mem_update store _ v hv with hEq | hMem
      · exact absurd (by rw [hEq]) hvid
      · simp [hfresh1 v hMem]
  refine ⟨by rw [hlogin1], by rw [hlogin2], hne, hlk1, ?_, ?_⟩
  · intro roles
    exact auth_of_lookup_none roles store2 k1 hk1 hlk1
  · exact ⟨_, hlk2, rfl, rfl, rfl⟩

/-- Witness for C4: the sample student logs in twice with fresh keys
"fresh-A" then "fresh-B". -/
theorem C4_witness :
    (loginUser eqVerify "fresh-A" 1 [sampleStudent]
        (some ⟨"a@test.com", "abc123"⟩)).2.1 = some "fresh-A"
    ∧ (loginUser eqVerify "fresh-B" 2
        (loginUser eqVerify "fresh-A" 1 [sampleStudent]
          (some ⟨"a@test.com", "abc123"⟩)).2.2
        (some ⟨"a@test.com", "abc123"⟩)).2.1 = some "fresh-B"
    ∧ "fresh-A" ≠ "fresh-B"
    ∧ getByAuthenticationKey
        (loginUser eqVerify "fresh-B" 2
          (loginUser eqVerify "fresh-A" 1 [sampleStudent]
            (some ⟨"a@test.com", "abc123"⟩)).2.2
          (some ⟨"a@test.com", "abc123"⟩)).2.2 "fresh-A" = none
    ∧ (∀ roles : List Role, authOnStore roles
        (loginUser eqVerify "fresh-B" 2
          (loginUser eqVerify "fresh-A" 1 [sampleStudent]
            (some ⟨"a@test.com", "abc123"⟩)).2.2
          (some ⟨"a@test.com", "abc123"⟩)).2.2 (some "fresh-A")
        = GuardDecision.reject ⟨403, "Access forbidden"⟩)
    ∧ (∃ u2, getByAuthenticationKey
          (loginUser eqVerify "fresh-B" 2
            (loginUser eqVerify "fresh-A" 1 [sampleStudent]
              (some ⟨"a@test.com", "abc123"⟩)).2.2
            (some ⟨"a@test.com", "abc123"⟩)).2.2 "fresh-B" = some u2
        ∧ u2._id = sampleStudent._id ∧ u2.email = sampleStudent.email
        ∧ u2.authentication_key = some "fresh-B") :=
  C4_theorem eqVerify "fresh-A" "fresh-B" 1 2 [sampleStudent] _ _
    ⟨"a@test.com", "abc123"⟩ sampleStudent
    (by decide) (by decide) (by decide) (by decide) (by decide)
    (by decide) (by decide) rfl rfl

/-! ### C9 -/

/-- C9: a successful login performs a full-replace update that changes only
`authentication_key` and `last_login`: the new store is the old one with
the logged-in user's record replaced by one agreeing with it on `_id`,
email, password hash, role and creation date. -/
theorem C9_theorem (verify : String → String → Bool) (freshKey : String)
    (now : Nat) (store : List UserObject) (body : LoginRequestBody)
    (user : UserObject)
    (hfind : getByEmail store body.email = some user)
    (hverify : verify body.password user.password = true) :
    ∃ u', (loginUser verify freshKey now store (some body)).2.2
        = store.map (fun v => if v._id = user._id then u' else v)
      ∧ u'._id = user._id ∧ u'.email = user.email ∧ u'.password = user.password
      ∧ u'.role = user.role ∧ u'.creation_date = user.creation_date
      ∧ u'.authentication_key = some freshKey ∧ u'.last_login = some now := by
  refine ⟨{ user with authentication_key := some freshKey, last_login := some now },
    ?_, rfl, rfl, rfl, rfl, rfl, rfl, rfl⟩
  rw [loginUser_success verify freshKey now store body user hfind hverify]
  rfl

/-- Witness for C9: the sample student's login frame, evaluated. -/
theorem C9_witness :
    ∃ u', (loginUser eqVerify "fresh-9" 42 [sampleStudent]
        (some ⟨"a@test.com", "abc123"⟩)).2.2
        = [sampleStudent].map (fun v => if v._id = sampleStudent._id then u' else v)
      ∧ u'._id = sampleStudent._id ∧ u'.email = sampleStudent.email
      ∧ u'.password = sampleStudent.password
      ∧ u'.role = sampleStudent.role ∧ u'.creation_date = sampleStudent.creation_date
      ∧ u'.authentication_key = some "fresh-9" ∧ u'.last_login = some 42 :=
  C9_theorem eqVerify "fresh-9" 42 [sampleStudent] ⟨"a@test.com", "abc123"⟩
    sampleStudent (by decide) (by decide)

/-! ### C5 -/

/-- C5, as stated, is false: a login with an absent email answers 401
"Invalid credentials" while a login with a present email and a wrong
password answers 401 "Invalid password" — the two observable responses are
not identical, so a caller can distinguish the cases by message. -/
theorem C5_counterexample :
    (loginUser eqVerify "k" 0 [sampleStudent] (some ⟨"zz@test.com", "abc123"⟩)).1
      = ⟨401, "Invalid credentials"⟩
    ∧ (loginUser eqVerify "k" 0 [sampleStudent] (some ⟨"a@test.com", "wrong"⟩)).1
      = ⟨401, "Invalid password"⟩
    ∧ (loginUser eqVerify "k" 0 [sampleStudent] (some ⟨"zz@test.com", "abc123"⟩)).1
      ≠ (loginUser eqVerify "k" 0 [sampleStudent] (some ⟨"a@test.com", "wrong"⟩)).1 := by
  exact ⟨rfl, rfl, by decide⟩

/-- C5 (amended): an absent-email login and a wrong-password login share
the same 401 status, but carry different messages ("Invalid credentials"
versus "Invalid password"), so the two cases are distinguishable by the
response body. -/
theorem C5_theorem (verify : String → String → Bool) (k : String) (t : Nat)
    (store : List UserObject) (b1 b2 : LoginRequestBody) (user : UserObject)
    (h1 : getByEmail store b1.email = none)
    (h2 : getByEmail store b2.email = some user)
    (h3 : verify b2.password user.password = false) :
    (loginUser verify k t store (some b1)).1 = ⟨401, "Invalid credentials"⟩
    ∧ (loginUser verify k t store (some b2)).1 = ⟨401, "Invalid password"⟩
    ∧ (loginUser verify k t store (some b1)).1.status
        = (loginUser verify k t store (some b2)).1.status
    ∧ (loginUser verify k t store (some b1)).1.message
        ≠ (loginUser verify k t store (some b2)).1.message := by
  have e1 : (loginUser verify k t store (some b1)).1
      = (⟨401, "Invalid credentials"⟩ : ApiResponse) := by
    simp [loginUser, h1]
  have e2 : (loginUser verify k t store (some b2)).1
      = (⟨401, "Invalid password"⟩ : ApiResponse) := by
    simp [loginUser, h2, h3]
  refine ⟨e1, e2, ?_, ?_⟩
  · rw [e1, e2]
  · rw [e1, e2]
    decide

/-- Witness for C5: the sample store with a missing email on one side and a
wrong password on the other. -/
theorem C5_witness :
    (loginUser eqVerify "k9" 3 [sampleStudent] (some ⟨"nobody@test.com", "abc123"⟩)).1
      = ⟨401, "Invalid credentials"⟩
    ∧ (loginUser eqVerify "k9" 3 [sampleStudent] (some ⟨"a@test.com", "nope"⟩)).1
      = ⟨401, "Invalid password"⟩
    ∧ (loginUser eqVerify "k9" 3 [sampleStudent] (some ⟨"nobody@test.com", "abc123"⟩)).1.status
        = (loginUser eqVerify "k9" 3 [sampleStudent] (some ⟨"a@test.com", "nope"⟩)).1.status
    ∧ (loginUser eqVerify "k9" 3 [sampleStudent] (some ⟨"nobody@test.com", "abc123"⟩)).1.message
        ≠ (loginUser eqVerify "k9" 3 [sampleStudent] (some ⟨"a@test.com", "nope"⟩)).1.message :=
  C5_theorem eqVerify "k9" 3 [sampleStudent] ⟨"nobody@test.com", "abc123"⟩
    ⟨"a@test.com", "nope"⟩ sampleStudent (by decide) (by decide) (by decide)

/-! ### C6 -/

/-- C6: registering with an email that already matches an existing record
answers 409 Conflict and returns before touching the store: the store after
the call is exactly the store before it (no mutation, no insertion). -/
theorem C6_theorem (hash : String → String) (now freshId : Nat)
    (store : List UserObject) (userData existing : UserObject)
    (hfind : getByEmail store userData.email = some existing) :
    (registerUser hash now freshId store userData).1
      = ⟨409, "The provided email address is already associated with another account."⟩
    ∧ (registerUser hash now freshId store userData).2 = store := by
  constructor <;> simp [registerUser, hfind]

/-- Witness for C6: registering the sample student's email again. -/
theorem C6_witness :
    (registerUser (fun s => String.append "$2b$" s) 9 7 [sampleStudent] sampleStudent).1
      = ⟨409, "The provided email address is already associated with another account."⟩
    ∧ (registerUser (fun s => String.append "$2b$" s) 9 7 [sampleStudent] sampleStudent).2
      = [sampleStudent] :=
  C6_theorem (fun s => String.append "$2b$" s) 9 7 [sampleStudent] sampleStudent
    sampleStudent (by decide)

/-! ### C7 -/

/-- C7: a successful registration appends exactly one record whose role is
"student" regardless of the role carried by the request body, whose stored
password is the hash of the supplied one (hence not the plaintext whenever
the hash differs from its input), whose creation date is stamped, and whose
authentication token is unset. -/
theorem C7_theorem (hash : String → String) (now freshId : Nat)
    (store : List UserObject) (userData : UserObject)
    (hnone : getByEmail store userData.email = none) :
    (registerUser hash now freshId store userData).1 = ⟨200, "Registration successful."⟩
    ∧ ∃ u, (registerUser hash now freshId store userData).2 = store ++ [u]
        ∧ u.role = Role.student
        ∧ u.email = userData.email
        ∧ u.password = hash userData.password
        ∧ u.creation_date = some now
        ∧ u.last_login = none
        ∧ u.authentication_key = none
        ∧ (hash userData.password ≠ userData.password → u.password ≠ userData.password) := by
  refine ⟨by simp [registerUser, hnone],
    ⟨freshId, userData.email, hash userData.password, Role.student, none, some now, none⟩,
    ?_, rfl, rfl, rfl, rfl, rfl, rfl, fun h => h⟩
  simp [registerUser, hnone, create]

/-- Witness for C7: registering a teacher-role body on an empty store still
stores role "student". -/
theorem C7_witness :
    (registerUser (fun s => String.append "$2b$" s) 11 4 []
        ⟨0, "new@test.com", "pw", Role.teacher, some "sneaky", none, none⟩).1
      = ⟨200, "Registration successful."⟩
    ∧ ∃ u, (registerUser (fun s => String.append "$2b$" s) 11 4 []
          ⟨0, "new@test.com", "pw", Role.teacher, some "sneaky", none, none⟩).2
        = [] ++ [u]
        ∧ u.role = Role.student
        ∧ u.email = (⟨0, "new@test.com", "pw", Role.teacher, some "sneaky", none, none⟩ : UserObject).email
        ∧ u.password = (fun s => String.append "$2b$" s) "pw"
        ∧ u.creation_date = some 11
        ∧ u.last_login = none
        ∧ u.authentication_key = none
        ∧ ((fun s => String.append "$2b$" s) "pw" ≠ "pw" → u.password ≠ "pw") :=
  C7_theorem (fun s => String.append "$2b$" s) 11 4 []
    ⟨0, "new@test.com", "pw", Role.teacher, some "sneaky", none, none⟩ (by decide)

/-! ### C10 -/

/-- C10: in the PUT /users/:id controller, the supplied password is hashed
iff it is non-empty and does not already start with "$2a"; in particular a
password that starts with "$2a" (even a plaintext one) is kept verbatim.
The hypothesis models that bcrypt output never equals its input. -/
theorem C10_theorem (hash10 : String → String) (password : String)
    (hh : ∀ s, hash10 s ≠ s) :
    (updateUserPassword hash10 password = hash10 password
      ↔ password ≠ "" ∧ password.startsWith "$2a" = false)
    ∧ (password.startsWith "$2a" = true →
        updateUserPassword hash10 password = password) := by
  by_cases h1 : password = ""
  · subst h1
    have hne := Ne.symm (hh "")
    simp [updateUserPassword, hne]
  · by_cases h2 : password.startsWith "$2a"
    · have hne := Ne.symm (hh password)
      simp [updateUserPassword, h1, h2, hne]
    · simp [updateUserPassword, h1, h2]

/-- Witness for C10: a concrete prefix-adding hasher (which never returns
its input, by a length argument) applied to an ordinary password. -/
theorem C10_witness :
    (updateUserPassword (fun s => String.append "$2b$" s) "abc123"
        = (fun s => String.append "$2b$" s) "abc123"
      ↔ "abc123" ≠ "" ∧ "abc123".startsWith "$2a" = false)
    ∧ ("abc123".startsWith "$2a" = true →
        updateUserPassword (fun s => String.append "$2b$" s) "abc123" = "abc123") :=
  C10_theorem (fun s => String.append "$2b$" s) "abc123" (fun s h => by
    have hlen : ("$2b$" ++ s).length = s.length := congrArg String.length h
    rw [String.length_append] at hlen
    have h4 : ("$2b$" : String).length = 4 := rfl
    rw [h4] at hlen
    omega)
